import Mathlib

/-!
Shallow embedding of the kiosk slideshow player (`src/js/app.js`, with the
earlier revision in `src/unnamed/part_000`) and proofs about it.

The embedding mirrors the source functions one-to-one; DOM-only effects
(element creation, styling, focus) are not represented, while every piece of
state the source reads or writes to make the decisions under scrutiny is:
the application state record `appState`, the teardown registry, the media
caches, the three active-element sets, element playback properties, the
sequential-overlay closure state, and the freeze-on-last-frame handler state.
-/

/-! ## Teardown Registry (app.js lines 1616-1639, part_000 lines 683-705)

A registered callback is opaque to the registry; we model it by an identifier
together with whether invoking it raises.  Invoking a handler is recorded as
the pair `(id, raises)` in the drain trace; the source wraps the call in
`try { handler() } catch {}` so a raise is caught and discarded and the loop
continues. -/

structure TeardownHandler where
  id : Nat
  raises : Bool
deriving DecidableEq, Inhabited

/-- `registerTeardownHandler`: `appState.teardownHandlers.push(teardownHandler)`. -/
def registerTeardownHandler (hs : List TeardownHandler) (h : TeardownHandler) :
    List TeardownHandler :=
  hs ++ [h]

/-- One iteration of the `while (appState.teardownHandlers.length)` loop pops the
last handler (`pop()`) and invokes it inside `try ... catch`.  Each iteration
removes exactly one element, so running the loop with fuel equal to the initial
length is the whole loop; the `none` branch is the loop exit when the list has
become empty. -/
def runTeardownSteps : Nat → List TeardownHandler → List (Nat × Bool) →
    List (Nat × Bool) × List TeardownHandler
  | 0, hs, acc => (acc, hs)
  | n + 1, hs, acc =>
    match hs.getLast? with
    | none => (acc, hs)
    | some top => runTeardownSteps n hs.dropLast (acc ++ [(top.id, top.raises)])

/-- `runTeardownHandlers`: drains the registry, returning the invocation trace
and the final registry contents. -/
def runTeardownHandlers (hs : List TeardownHandler) :
    List (Nat × Bool) × List TeardownHandler :=
  runTeardownSteps hs.length hs []

/-! ## Configuration data model (spec section 3, consumed throughout app.js) -/

structure BaseMedia where
  type : String := ""
  src : String := ""
  alt : String := ""
  poster : String := ""
  controls : Bool := false
  caption : String := ""
deriving DecidableEq

structure OverlayDef where
  type : String := ""
  persistent : Bool := false
  autoAdvance : Bool := false
  delay : Option ℚ := none
  action : String := ""
  showAt : Option ℚ := none
  hideAt : Option ℚ := none
deriving DecidableEq

structure Slide where
  base : BaseMedia := {}
  overlays : List OverlayDef := []
  advance : String := ""
  duration : Option ℚ := none
  preloadNext : Bool := true
deriving DecidableEq

structure PathDef where
  title : String := ""
  image : String := ""
  slides : List Slide := []
deriving DecidableEq

structure SlidesConfig where
  paths : List PathDef := []
deriving DecidableEq

/-! ## Application state and navigation (app.js lines 19-27, 164-168, 443-527) -/

inductive Mode where
  | BOOT
  | SPLASH
  | RUNNING
deriving DecidableEq

/-- The fields a call to `setState` may carry; `Object.assign` overwrites
exactly the fields present on the partial-state argument. -/
structure PartialState where
  mode : Option Mode := none
  pathIndex : Option (Option Nat) := none
  slideIndex : Option (Option Nat) := none

/-- The `appState` record.  `pathIndex`/`slideIndex` are `null` outside
`RUNNING`, modelled as `Option Nat`. -/
structure AppState where
  mode : Mode := .BOOT
  config : Option SlidesConfig := none
  pathIndex : Option Nat := none
  slideIndex : Option Nat := none
  teardownHandlers : List TeardownHandler := []
  musicEnabled : Bool := true
  soundEnabled : Bool := true

/-- `getPathsConfig`: `appState.config?.paths || []`. -/
def getPathsConfig (s : AppState) : List PathDef :=
  match s.config with
  | some c => c.paths
  | none => []

/-- `setState`: drain the teardown registry, then `Object.assign` the partial
state onto `appState`, then `render()` (DOM-only, not modelled here; the audio
side effects of specific transitions are modelled on the audio state below). -/
def setState (s : AppState) (p : PartialState) : AppState :=
  { s with
    teardownHandlers := (runTeardownHandlers s.teardownHandlers).2
    mode := p.mode.getD s.mode
    pathIndex := p.pathIndex.getD s.pathIndex
    slideIndex := p.slideIndex.getD s.slideIndex }

/-- `selectPath(pathIndex)`: `stopMusic()` and `playSound("click1")` touch only
the audio state (modelled separately), then
`setState({ mode: "RUNNING", pathIndex, slideIndex: 0 })`. -/
def selectPath (s : AppState) (pathIndex : Nat) : AppState :=
  setState s { mode := some .RUNNING, pathIndex := some (some pathIndex),
               slideIndex := some (some 0) }

/-- `returnToSplash`, state portion: `setState({ mode: "SPLASH",
pathIndex: null, slideIndex: null })`.  The audio portion (stop buses, pause
and mute videos, restart splash music) acts on the audio state modelled
below. -/
def returnToSplashState (s : AppState) : AppState :=
  setState s { mode := some .SPLASH, pathIndex := some none,
               slideIndex := some none }

/-- The body of `moveToNextSlide` (the `requestAnimationFrame` callback).
`paths[appState.pathIndex]` with an invalid or `null` index yields `undefined`
and the subsequent `.slides` access throws, modelled as `none`.  JavaScript
evaluates `null + 1` to `1`, hence `s.slideIndex.getD 0 + 1`. -/
def moveToNextSlideStep (s : AppState) : Option AppState :=
  match s.pathIndex.bind (fun pi => (getPathsConfig s)[pi]?) with
  | none => none
  | some currentPath =>
    let nextIndex := s.slideIndex.getD 0 + 1
    if currentPath.slides.length ≤ nextIndex then
      some (returnToSplashState s)
    else
      some (setState s { mode := some .RUNNING, slideIndex := some (some nextIndex) })

/-- `goToNextSlideFromUserGesture`: same index arithmetic, but guarded by
`if (!currentPath) { returnToSplash(); return; }`, and the state update is
synchronous.  The post-render `video.play()` affects only the audio/video
state. -/
def goToNextSlideFromUserGestureStep (s : AppState) : AppState :=
  match s.pathIndex.bind (fun pi => (getPathsConfig s)[pi]?) with
  | none => returnToSplashState s
  | some currentPath =>
    let nextIndex := s.slideIndex.getD 0 + 1
    if currentPath.slides.length ≤ nextIndex then
      returnToSplashState s
    else
      setState s { mode := some .RUNNING, slideIndex := some (some nextIndex) }

/-! ## Media cache, active sets and audio director (app.js lines 34-113, 266-312,
1144-1521)

Media elements are modelled as a heap `Nat → MediaElem` addressed by ids
allocated from `nextId`; element identity is therefore id equality, which is
what the cache claims are about.  The caches are association lists keyed by
`src` in insertion order, the three active sets are id lists in insertion
order (a JavaScript `Set` iterates in insertion order), and `playCalls`
records every id on which `play()` was invoked.  Buffering hints
(`preload`, the off-screen pool) have no further observable effect here and
are not modelled. -/

structure MediaElem where
  src : String := ""
  muted : Bool := false
  paused : Bool := true
  currentTime : ℚ := 0
  loop : Bool := false
  volume : ℚ := 1
  controls : Bool := false
  poster : String := ""
deriving DecidableEq

structure AVState where
  musicEnabled : Bool := true
  soundEnabled : Bool := true
  nextId : Nat := 0
  elems : Nat → MediaElem := fun _ => {}
  videoCache : List (String × Nat) := []
  musicCache : List (String × Nat) := []
  soundCache : List (String × Nat) := []
  activeMusic : List Nat := []
  activeSound : List Nat := []
  activeVideo : List Nat := []
  endedWatchers : List Nat := []
  playCalls : List Nat := []

/-- The initial module state: empty caches and sets, both channels enabled. -/
def avInit : AVState := {}

/-- `Set.add`: appends if absent. -/
def setAdd (l : List Nat) (x : Nat) : List Nat :=
  if x ∈ l then l else l ++ [x]

/-- `Set.delete`. -/
def setDel (l : List Nat) (x : Nat) : List Nat :=
  l.filter (fun y => y != x)

/-- `Map.get`. -/
def lookupAssoc (l : List (String × Nat)) (k : String) : Option Nat :=
  (l.find? (fun p => p.1 == k)).map Prod.snd

/-- Assignment to properties of one element. -/
def updateElem (s : AVState) (id : Nat) (f : MediaElem → MediaElem) : AVState :=
  { s with elems := fun n => if n = id then f (s.elems n) else s.elems n }

/-- A `forEach` over a set of elements assigning properties to each. -/
def updEach (s : AVState) (l : List Nat) (f : MediaElem → MediaElem) : AVState :=
  l.foldl (fun acc i => updateElem acc i f) s

/-- `getOrCreateMusicAudio(src)`: falsy `src` gives `null`; otherwise look up
the music cache, creating and caching a fresh `Audio` element on a miss. -/
def getOrCreateMusicAudio (s : AVState) (src : String) : Option Nat × AVState :=
  if src = "" then (none, s)
  else
    match lookupAssoc s.musicCache src with
    | some audio => (some audio, s)
    | none =>
      let audio := s.nextId
      (some audio,
        { s with nextId := audio + 1,
                 elems := fun n => if n = audio then { src := src } else s.elems n,
                 musicCache := s.musicCache ++ [(src, audio)] })

/-- `getOrCreateSoundAudio(src)`: identical policy on the sound cache. -/
def getOrCreateSoundAudio (s : AVState) (src : String) : Option Nat × AVState :=
  if src = "" then (none, s)
  else
    match lookupAssoc s.soundCache src with
    | some audio => (some audio, s)
    | none =>
      let audio := s.nextId
      (some audio,
        { s with nextId := audio + 1,
                 elems := fun n => if n = audio then { src := src } else s.elems n,
                 soundCache := s.soundCache ++ [(src, audio)] })

/-- `getOrCreatePreloadedVideo(base)`: falsy `base?.src` gives `null`; look up
the video cache, creating, parking and caching a fresh video element on a miss
(created muted iff sound is disabled); in both cases refresh the per-use
properties (`muted`, `controls`, `poster`) and add the element to
`activeVideoElements`.  No `play()` happens here. -/
def getOrCreatePreloadedVideo (s : AVState) (base : BaseMedia) : Option Nat × AVState :=
  if base.src = "" then (none, s)
  else
    let found :=
      match lookupAssoc s.videoCache base.src with
      | some video => (video, s)
      | none =>
        let video := s.nextId
        (video,
          { s with nextId := video + 1,
                   elems := fun n => if n = video then
                       { src := base.src, muted := !s.soundEnabled,
                         controls := base.controls }
                     else s.elems n,
                   videoCache := s.videoCache ++ [(base.src, video)] })
    let video := found.1
    let s := found.2
    let s := updateElem s video (fun e =>
      { e with muted := !s.soundEnabled, controls := base.controls,
               poster := if base.poster != "" then base.poster else e.poster })
    (some video, { s with activeVideo := setAdd s.activeVideo video })

/-- `preloadVideoSource(src)`: preload through the shared cached-element path. -/
def preloadVideoSource (s : AVState) (src : String) : AVState :=
  if src = "" then s
  else (getOrCreatePreloadedVideo s { type := "video", src := src }).2

/-- `playMusic(target, options)`: no-op returning `null` when music is
disabled or the target does not resolve; optionally stop all other music
first; set `loop`/`volume`/unmute, join `activeMusicElements`, and start
playback. -/
def playMusic (s : AVState) (target : Option Nat) (stopOthers loop : Bool)
    (volume : ℚ) : Option Nat × AVState :=
  if s.musicEnabled = false then (none, s)
  else
    match target with
    | none => (none, s)
    | some audio =>
      let s := if stopOthers then
          { updEach s s.activeMusic (fun e => { e with paused := true, currentTime := 0 })
            with activeMusic := [] }
        else s
      let s := updateElem s audio (fun e =>
        { e with loop := loop, volume := volume, muted := false })
      let s := { s with activeMusic := setAdd s.activeMusic audio }
      let s := { s with playCalls := s.playCalls ++ [audio] }
      let s := updateElem s audio (fun e => { e with paused := false })
      (some audio, s)

/-- `pauseMusic(target?)`: pause all active music, or one resolved target;
positions and set membership are retained. -/
def pauseMusic (s : AVState) (target : Option (Option Nat)) : AVState :=
  match target with
  | none => updEach s s.activeMusic (fun e => { e with paused := true })
  | some none => s
  | some (some audio) => updateElem s audio (fun e => { e with paused := true })

/-- `resumeMusic()`: when music is enabled, restart the first paused member of
`activeMusicElements`, if any. -/
def resumeMusic (s : AVState) : Option Nat × AVState :=
  if s.musicEnabled = false then (none, s)
  else
    match s.activeMusic.find? (fun el => (s.elems el).paused) with
    | none => (none, s)
    | some el =>
      let s := { s with playCalls := s.playCalls ++ [el] }
      (some el, updateElem s el (fun e => { e with paused := false }))

/-- `stopMusic(target?)`: pause and rewind to zero all active music clearing
the set, or one resolved target removing it from the set. -/
def stopMusic (s : AVState) (target : Option (Option Nat)) : AVState :=
  match target with
  | none =>
    { updEach s s.activeMusic (fun e => { e with paused := true, currentTime := 0 })
      with activeMusic := [] }
  | some none => s
  | some (some audio) =>
    let s := updateElem s audio (fun e => { e with paused := true, currentTime := 0 })
    { s with activeMusic := setDel s.activeMusic audio }

/-- `playSound(target, options)`: as `playMusic` on the sound channel, with
`stopOthers`/`loop` defaulting to false at call sites, a restart-from-zero for
effects, and an `ended` listener (registered once playback starts) that will
drop a non-looping effect from the active set when it finishes naturally. -/
def playSound (s : AVState) (target : Option Nat) (stopOthers loop : Bool)
    (volume : ℚ) : Option Nat × AVState :=
  if s.soundEnabled = false then (none, s)
  else
    match target with
    | none => (none, s)
    | some audio =>
      let s := if stopOthers then
          { updEach s s.activeSound (fun e => { e with paused := true, currentTime := 0 })
            with activeSound := [] }
        else s
      let s := updateElem s audio (fun e =>
        { e with loop := loop, volume := volume, muted := false })
      let s := updateElem s audio (fun e => { e with currentTime := 0 })
      let s := { s with activeSound := setAdd s.activeSound audio }
      let s := { s with playCalls := s.playCalls ++ [audio] }
      let s := updateElem s audio (fun e => { e with paused := false })
      let s := if loop then s
        else { s with endedWatchers := setAdd s.endedWatchers audio }
      (some audio, s)

/-- The `ended` listener installed by `playSound` for a non-looping effect:
remove the element from `activeSoundElements` and detach the listener. -/
def soundEnded (s : AVState) (audio : Nat) : AVState :=
  if audio ∈ s.endedWatchers then
    { s with activeSound := setDel s.activeSound audio,
             endedWatchers := setDel s.endedWatchers audio }
  else s

/-- `pauseSound(target?)`. -/
def pauseSound (s : AVState) (target : Option (Option Nat)) : AVState :=
  match target with
  | none => updEach s s.activeSound (fun e => { e with paused := true })
  | some none => s
  | some (some audio) => updateElem s audio (fun e => { e with paused := true })

/-- `resumeSound()`. -/
def resumeSound (s : AVState) : Option Nat × AVState :=
  if s.soundEnabled = false then (none, s)
  else
    match s.activeSound.find? (fun el => (s.elems el).paused) with
    | none => (none, s)
    | some el =>
      let s := { s with playCalls := s.playCalls ++ [el] }
      (some el, updateElem s el (fun e => { e with paused := false }))

/-- `stopSound(target?)`. -/
def stopSound (s : AVState) (target : Option (Option Nat)) : AVState :=
  match target with
  | none =>
    { updEach s s.activeSound (fun e => { e with paused := true, currentTime := 0 })
      with activeSound := [] }
  | some none => s
  | some (some audio) =>
    let s := updateElem s audio (fun e => { e with paused := true, currentTime := 0 })
    { s with activeSound := setDel s.activeSound audio }

/-- `muteAllVideos(muted)`. -/
def muteAllVideos (s : AVState) (m : Bool) : AVState :=
  updEach s s.activeVideo (fun e => { e with muted := m })

/-- `pauseAllVideos()`. -/
def pauseAllVideos (s : AVState) : AVState :=
  updEach s s.activeVideo (fun e => { e with paused := true })

/-- The unified audio toggle click listener of `createGlobalAudioToggles`:
flip both enabled flags together; turning off pauses both buses and mutes
every active video, turning on resumes and unmutes. -/
def toggleGlobalAudio (s : AVState) : AVState :=
  let nextEnabled := !s.soundEnabled
  let s := { s with soundEnabled := nextEnabled, musicEnabled := nextEnabled }
  if nextEnabled = false then
    let s := pauseMusic s none
    let s := pauseSound s none
    muteAllVideos s true
  else
    let s := (resumeMusic s).2
    let s := (resumeSound s).2
    muteAllVideos s false

def splashMusicSrc : String := "media/sound/mp3/MusicLoops/SplunkBTM_UI_Music_LOOP.mp3"

/-- The audio portion of `returnToSplash`: stop both buses, pause and mute all
active videos, then fetch the splash background loop from the sound cache and
hand it to `playMusic` (with the default options). -/
def returnToSplashAudio (s : AVState) : AVState :=
  let s := stopMusic s none
  let s := stopSound s none
  let s := pauseAllVideos s
  let s := muteAllVideos s true
  let r := getOrCreateSoundAudio s splashMusicSrc
  (playMusic r.2 r.1 true true 1).2

/-- The video path of `createBaseMediaElement`: fetch from the cache (falsy
`src` yields the fallback `div`, modelled as `none`), rewind to the start,
sync `muted` with the sound flag, and attempt playback. -/
def createBaseVideoElement (s : AVState) (base : BaseMedia) : Option Nat × AVState :=
  match getOrCreatePreloadedVideo s base with
  | (none, s) => (none, s)
  | (some video, s) =>
    let s := updateElem s video (fun e => { e with currentTime := 0 })
    let s := updateElem s video (fun e => { e with muted := !s.soundEnabled })
    let s := { s with playCalls := s.playCalls ++ [video] }
    let s := updateElem s video (fun e => { e with paused := false })
    (some video, s)

/-- The video branch of `createOverlayElement`: a fresh (uncached) video
element, muted iff sound is disabled, added to `activeVideoElements`, played
immediately when `autoplay` is set. -/
def createOverlayVideoElement (s : AVState) (src : String) (loop autoplay : Bool) :
    Nat × AVState :=
  let video := s.nextId
  let s := { s with nextId := video + 1,
                    elems := fun n => if n = video then
                        { src := src, muted := !s.soundEnabled, loop := loop }
                      else s.elems n,
                    activeVideo := setAdd s.activeVideo video }
  let s := if autoplay then
      let s := { s with playCalls := s.playCalls ++ [video] }
      updateElem s video (fun e => { e with paused := false })
    else s
  (video, s)

/-- Ids tracked as active videos or cached as videos are allocated ids. -/
def avWf (s : AVState) : Bool :=
  s.activeVideo.all (fun v => v < s.nextId) &&
    s.videoCache.all (fun p => p.2 < s.nextId)

/-- Every element tracked in `activeVideoElements` reports `muted === true`. -/
def allActiveVideosMuted (s : AVState) : Bool :=
  s.activeVideo.all (fun v => (s.elems v).muted)

/-- The audio-off regime: both channel flags false, the id bookkeeping sound,
and every active video muted. -/
def audioHardOff (s : AVState) : Prop :=
  s.musicEnabled = false ∧ s.soundEnabled = false ∧ avWf s = true ∧
    allActiveVideosMuted s = true

/-- Every operation in the source that touches the audio/video module state. -/
inductive AVEvent where
  | toggleGlobal
  | playMusicEv (target : Option Nat) (stopOthers loop : Bool) (volume : ℚ)
  | pauseMusicEv (target : Option (Option Nat))
  | resumeMusicEv
  | stopMusicEv (target : Option (Option Nat))
  | playSoundEv (target : Option Nat) (stopOthers loop : Bool) (volume : ℚ)
  | pauseSoundEv (target : Option (Option Nat))
  | resumeSoundEv
  | stopSoundEv (target : Option (Option Nat))
  | soundEndedEv (audio : Nat)
  | getMusicAudioEv (src : String)
  | getSoundAudioEv (src : String)
  | getVideoEv (base : BaseMedia)
  | baseVideoEv (base : BaseMedia)
  | overlayVideoEv (src : String) (loop autoplay : Bool)
  | preloadVideoEv (src : String)
  | returnToSplashEv
  | initialMuteSync
deriving DecidableEq

def stepAV (s : AVState) : AVEvent → AVState
  | .toggleGlobal => toggleGlobalAudio s
  | .playMusicEv t so lo vol => (playMusic s t so lo vol).2
  | .pauseMusicEv t => pauseMusic s t
  | .resumeMusicEv => (resumeMusic s).2
  | .stopMusicEv t => stopMusic s t
  | .playSoundEv t so lo vol => (playSound s t so lo vol).2
  | .pauseSoundEv t => pauseSound s t
  | .resumeSoundEv => (resumeSound s).2
  | .stopSoundEv t => stopSound s t
  | .soundEndedEv a => soundEnded s a
  | .getMusicAudioEv src => (getOrCreateMusicAudio s src).2
  | .getSoundAudioEv src => (getOrCreateSoundAudio s src).2
  | .getVideoEv base => (getOrCreatePreloadedVideo s base).2
  | .baseVideoEv base => (createBaseVideoElement s base).2
  | .overlayVideoEv src lo ap => (createOverlayVideoElement s src lo ap).2
  | .preloadVideoEv src => preloadVideoSource s src
  | .returnToSplashEv => returnToSplashAudio s
  | .initialMuteSync => muteAllVideos s (!s.soundEnabled)

/-! ## Sequential overlay engine (app.js lines 610-777)

`renderSequentialOverlays` closes over `currentIndex`, `currentElement`,
`isWaiting`, `showTimerId` and `autoTimerId`, and over the module-level
`overlayAdvanceHandler`.  We model that closure state explicitly;
`currentShown`/`showTimer` carry overlay indices in place of DOM elements and
timer ids, and `slideAdvance` records which slide-level advance primitive the
engine invoked, if any. -/

/-- The two slide-level advance primitives of section 4.1: `moveToNextSlide`
(deferred to the next animation frame) and `goToNextSlideFromUserGesture`
(synchronous inside the gesture). -/
inductive AdvPrim where
  | deferred
  | gesture
deriving DecidableEq

structure SeqState where
  currentIndex : Nat := 0
  currentShown : Option Nat := none
  isWaiting : Bool := false
  showTimer : Option Nat := none
  autoTimer : Bool := false
  handlerInstalled : Bool := true
  slideAdvance : Option AdvPrim := none
deriving DecidableEq

/-- `typeof def.delay === "number" && def.delay > 0`. -/
def delayPos (o : OverlayDef) : Bool :=
  match o.delay with
  | some d => decide (0 < d)
  | none => false

/-- `nonSoundDefs = overlays.filter((o) => !o || o.type !== "sound")`
(overlays modelled as non-null records). -/
def nonSoundDefs (overlays : List OverlayDef) : List OverlayDef :=
  overlays.filter (fun o => o.type != "sound")

/-- `persistentDefs = nonSoundDefs.filter((o) => o && o.persistent === true)`. -/
def persistentDefs (overlays : List OverlayDef) : List OverlayDef :=
  (nonSoundDefs overlays).filter (fun o => o.persistent)

/-- `sequenceDefs = nonSoundDefs.filter((o) => o && o.persistent !== true)`. -/
def sequenceDefs (overlays : List OverlayDef) : List OverlayDef :=
  (nonSoundDefs overlays).filter (fun o => !o.persistent)

/-- `clearTimers()`: cancels both the pre-show and the auto-advance timer. -/
def clearTimers (s : SeqState) : SeqState :=
  { s with showTimer := none, autoTimer := false }

/-- `showOverlayNow(index)`: remove the current element; if `index` is out of
range, leave nothing shown; otherwise show overlay `index`, clear `isWaiting`,
play its audio (audio state modelled separately), and when
`autoAdvance === true` with a positive numeric `delay`, start the dwell
timer. -/
def showOverlayNow (defs : List OverlayDef) (index : Nat) (s : SeqState) : SeqState :=
  let s := { s with currentShown := none }
  match defs[index]? with
  | none => s
  | some o =>
    let s := { s with currentShown := some index, isWaiting := false }
    if o.autoAdvance && delayPos o then { s with autoTimer := true } else s

/-- `scheduleOverlay(index)`: clear timers; an `autoAdvance` overlay appears
immediately; a non-`autoAdvance` overlay with positive `delay` is hidden,
`isWaiting` is set and the pre-show timer started; otherwise the overlay
appears immediately. -/
def scheduleOverlay (defs : List OverlayDef) (index : Nat) (s : SeqState) : SeqState :=
  let s := clearTimers s
  match defs[index]? with
  | none => { s with currentShown := none }
  | some o =>
    if o.autoAdvance then
      showOverlayNow defs index s
    else if delayPos o then
      { s with currentShown := none, isWaiting := true, showTimer := some index }
    else
      showOverlayNow defs index s

/-- `advance()`: ignored while `isWaiting`; steps the cursor and schedules the
next overlay while one remains; past the last element it uninstalls the
overlay-advance hook and performs `goToNextSlideFromUserGesture()`. -/
def seqAdvance (defs : List OverlayDef) (s : SeqState) : SeqState :=
  if s.isWaiting then s
  else if s.currentIndex + 1 < defs.length then
    scheduleOverlay defs (s.currentIndex + 1) { s with currentIndex := s.currentIndex + 1 }
  else
    { s with handlerInstalled := false, slideAdvance := some .gesture }

/-- The events that can reach the closure: an advance request (a stage click,
or an overlay `action: "next"` calling `overlayAdvanceHandler`), the pre-show
timer firing, and the dwell timer firing. -/
inductive SeqEvent where
  | advanceRequest
  | showTimerFires
  | autoTimerFires
deriving DecidableEq

def stepSeq (defs : List OverlayDef) (s : SeqState) : SeqEvent → SeqState
  | .advanceRequest => seqAdvance defs s
  | .showTimerFires =>
    match s.showTimer with
    | some i => showOverlayNow defs i { s with showTimer := none }
    | none => s
  | .autoTimerFires =>
    if s.autoTimer then seqAdvance defs { s with autoTimer := false } else s

/-- What a stage click does under `renderSequentialOverlays`: when
`sequenceDefs.length === 0` the handler is `() => moveToNextSlide()` (the
deferred primitive); otherwise the handler is `() => advance()`. -/
def stageClickSequential (overlays : List OverlayDef) (s : SeqState) : SeqState :=
  if sequenceDefs overlays = [] then
    { s with slideAdvance := some .deferred }
  else
    stepSeq (sequenceDefs overlays) s .advanceRequest

/-! ## Freeze on last frame (app.js lines 327-345, 374-380) -/

structure FreezeState where
  frozen : Bool := false
  listenerAttached : Bool := true
deriving DecidableEq

structure VideoPlayback where
  paused : Bool := false
  currentTime : ℚ := 0
  duration : ℚ := 0
deriving DecidableEq

/-- The `timeupdate` handler installed by `attachFreezeOnLastFrame`: a removed
listener no longer runs; `!video.duration || frozen` returns early (a missing
duration is falsy, modelled as `0`); when the remaining time is at most 0.05s
it pauses, seeks to `max(duration - 0.05, 0)`, sets `frozen` and removes
itself. -/
def freezeOnTimeUpdate (fs : FreezeState) (v : VideoPlayback) :
    FreezeState × VideoPlayback :=
  if fs.listenerAttached = false then (fs, v)
  else if v.duration = 0 ∨ fs.frozen = true then (fs, v)
  else if v.duration - v.currentTime ≤ 1 / 20 then
    ({ frozen := true, listenerAttached := false },
     { v with paused := true, currentTime := max (v.duration - 1 / 20) 0 })
  else (fs, v)

/-- Playback between `timeupdate` ticks moves `currentTime`; each tick observes
the new position and runs the handler. -/
def freezeTicks (fs : FreezeState) (v : VideoPlayback) :
    List ℚ → FreezeState × VideoPlayback
  | [] => (fs, v)
  | t :: ts =>
    let r := freezeOnTimeUpdate fs { v with currentTime := t }
    freezeTicks r.1 r.2 ts

/-- The kind of element `createBaseMediaElement` returns: an image, a video
from the cache, or a fallback `div` (video with falsy `src`, for which
`getOrCreatePreloadedVideo` returns `null`, or an unsupported type). -/
def createBaseMediaKind (base : BaseMedia) : String :=
  if base.type == "image" then "img"
  else if base.type == "video" then
    (if base.src == "" then "fallback" else "video")
  else "fallback"

/-- The `renderSlide` condition guarding `attachFreezeOnLastFrame(baseMedia)`:
`base?.type === "video" && advance !== "video-end" && baseMedia instanceof
HTMLVideoElement`; the instance test holds exactly when `createBaseMediaElement`
took the video path. -/
def rendererAttachesFreeze (slide : Slide) : Bool :=
  slide.base.type == "video" && slide.advance != "video-end" &&
    createBaseMediaKind slide.base == "video"

/-! ## Stage-click advance decision (app.js lines 980-999, part_000 lines 443-462) -/

/-- `slideHasInteractiveOverlay`: any overlay of type `button` or `hotspot`
(absent overlay list modelled as `[]`, for which `Array.isArray` fails and the
source returns `false`). -/
def slideHasInteractiveOverlay (slide : Slide) : Bool :=
  slide.overlays.any (fun o => o.type == "button" || o.type == "hotspot")

/-- `shouldStageAdvanceOnClick`, translated branch for branch. -/
def shouldStageAdvanceOnClick (slide : Slide) : Bool :=
  if slide.advance == "timer" || slide.advance == "video-end" then false
  else if slideHasInteractiveOverlay slide then false
  else if slide.advance == "click" then true
  else true

/-! ## Lemmas about the teardown drain -/

lemma runTeardownSteps_concat (l : List TeardownHandler) (top : TeardownHandler)
    (acc : List (Nat × Bool)) :
    runTeardownSteps (l.length + 1) (l ++ [top]) acc =
      runTeardownSteps l.length l (acc ++ [(top.id, top.raises)]) := by
  simp [runTeardownSteps]

lemma runTeardownSteps_spec (l : List TeardownHandler) :
    ∀ acc, runTeardownSteps l.length l acc =
      (acc ++ l.reverse.map (fun h => (h.id, h.raises)), []) := by
  induction l using List.reverseRecOn with
  | nil => intro acc; simp [runTeardownSteps]
  | append_singleton l top ih =>
    intro acc
    rw [List.length_append, List.length_singleton, runTeardownSteps_concat, ih]
    simp

/-- C1: the teardown drain invokes every registered callback in strict
last-in-first-out order (the trace is the reverse of the registration order),
callbacks that raise are invoked like any other and their raise is discarded,
and the registry list is empty after the drain.  The second conjunct states
this for an arbitrary registry contents; the first phrases it for a list of
callbacks registered one by one through `registerTeardownHandler`. -/
theorem teardown_drain_lifo_and_empties :
    (∀ l : List TeardownHandler,
      runTeardownHandlers (l.foldl registerTeardownHandler []) =
        (l.reverse.map (fun h => (h.id, h.raises)), [])) ∧
    (∀ hs : List TeardownHandler,
      (runTeardownHandlers hs).1 = hs.reverse.map (fun h => (h.id, h.raises)) ∧
      (runTeardownHandlers hs).2 = []) := by
  have hfold : ∀ l : List TeardownHandler, l.foldl registerTeardownHandler [] = l := by
    intro l
    have : ∀ init : List TeardownHandler, l.foldl registerTeardownHandler init = init ++ l := by
      induction l with
      | nil => intro init; simp
      | cons a t ih => intro init; simp [registerTeardownHandler, ih]
    simpa using this []
  constructor
  · intro l
    rw [hfold, runTeardownHandlers, runTeardownSteps_spec]
    simp
  · intro hs
    rw [runTeardownHandlers, runTeardownSteps_spec]
    simp

/-- C2: with a configuration loaded, `selectPath(i)` leaves the state in mode
`RUNNING` with `pathIndex = i` and `slideIndex = 0`. -/
theorem selectPath_enters_running (s : AppState) (cfg : SlidesConfig) (i : Nat)
    (hcfg : s.config = some cfg) :
    (selectPath s i).mode = Mode.RUNNING ∧
    (selectPath s i).pathIndex = some i ∧
    (selectPath s i).slideIndex = some 0 ∧
    (selectPath s i).config = some cfg := by
  simp [selectPath, setState, hcfg]

/-- Witness for C2 at a concrete state. -/
theorem selectPath_enters_running_witness :
    (selectPath { config := some { paths := [{ slides := [{}] }] } } 3).mode = Mode.RUNNING ∧
    (selectPath { config := some { paths := [{ slides := [{}] }] } } 3).pathIndex = some 3 ∧
    (selectPath { config := some { paths := [{ slides := [{}] }] } } 3).slideIndex = some 0 :=
  let t := selectPath_enters_running { config := some { paths := [{ slides := [{}] }] } }
    { paths := [{ slides := [{}] }] } 3 rfl
  ⟨t.1, t.2.1, t.2.2.1⟩

/-- C3: when the current slide is the final slide of its path, both advance
primitives return to the splash screen: mode `SPLASH` with both indices
`null`. -/
theorem advance_past_final_slide_returns_to_splash (s : AppState) (pi si : Nat)
    (path : PathDef)
    (hpi : s.pathIndex = some pi) (hsi : s.slideIndex = some si)
    (hpath : (getPathsConfig s)[pi]? = some path)
    (hfinal : si + 1 = path.slides.length) :
    moveToNextSlideStep s = some (returnToSplashState s) ∧
    goToNextSlideFromUserGestureStep s = returnToSplashState s ∧
    (returnToSplashState s).mode = Mode.SPLASH ∧
    (returnToSplashState s).pathIndex = none ∧
    (returnToSplashState s).slideIndex = none := by
  have hb : s.pathIndex.bind (fun j => (getPathsConfig s)[j]?) = some path := by
    rw [hpi]; simpa using hpath
  refine ⟨?_, ?_, ?_, ?_, ?_⟩
  · rw [moveToNextSlideStep, hb]
    simp [hsi, ← hfinal]
  · rw [goToNextSlideFromUserGestureStep, hb]
    simp [hsi, ← hfinal]
  · simp [returnToSplashState, setState]
  · simp [returnToSplashState, setState]
  · simp [returnToSplashState, setState]

/-- Witness for C3: a one-path, one-slide configuration currently showing the
final slide. -/
theorem advance_past_final_slide_returns_to_splash_witness :
    moveToNextSlideStep
        { mode := .RUNNING, config := some { paths := [{ slides := [{}] }] },
          pathIndex := some 0, slideIndex := some 0 } =
      some (returnToSplashState
        { mode := .RUNNING, config := some { paths := [{ slides := [{}] }] },
          pathIndex := some 0, slideIndex := some 0 }) :=
  (advance_past_final_slide_returns_to_splash
    { mode := .RUNNING, config := some { paths := [{ slides := [{}] }] },
      pathIndex := some 0, slideIndex := some 0 }
    0 0 { slides := [{}] } rfl rfl rfl (by simp)).1

/-! ## Lemmas and theorems about the sequential overlay engine -/

lemma showOverlayNow_slideAdvance (defs : List OverlayDef) (i : Nat) (s : SeqState) :
    (showOverlayNow defs i s).slideAdvance = s.slideAdvance := by
  unfold showOverlayNow
  cases defs[i]? with
  | none => rfl
  | some o => dsimp only; split <;> rfl

lemma scheduleOverlay_slideAdvance (defs : List OverlayDef) (i : Nat) (s : SeqState) :
    (scheduleOverlay defs i s).slideAdvance = s.slideAdvance := by
  unfold scheduleOverlay
  cases defs[i]? with
  | none => rfl
  | some o =>
    dsimp only
    split
    · rw [showOverlayNow_slideAdvance]; rfl
    · split
      · rfl
      · rw [showOverlayNow_slideAdvance]; rfl

/-- C5: while a pre-show delay timer is pending (`isWaiting` set), an advance
request (stage click or overlay `action: "next"`) leaves the closure state
untouched — in particular `currentIndex` does not move and no slide advance is
performed — and any run of such requests does too; `isWaiting` is set by
scheduling a non-`autoAdvance` overlay with positive delay, and is cleared
exactly when the pending overlay is shown by its pre-show timer firing. -/
theorem seq_preshow_wait_blocks_advance (defs : List OverlayDef) (s : SeqState)
    (hw : s.isWaiting = true) :
    stepSeq defs s .advanceRequest = s ∧
    (∀ l : List SeqEvent, (∀ e ∈ l, e = SeqEvent.advanceRequest) →
      l.foldl (stepSeq defs) s = s) ∧
    (∀ i o, defs[i]? = some o → o.autoAdvance = false → delayPos o = true →
      (scheduleOverlay defs i s).isWaiting = true) ∧
    (∀ i o, s.showTimer = some i → defs[i]? = some o →
      (stepSeq defs s SeqEvent.showTimerFires).isWaiting = false ∧
      (stepSeq defs s SeqEvent.showTimerFires).currentShown = some i) := by
  have hstep : stepSeq defs s .advanceRequest = s := by
    simp [stepSeq, seqAdvance, hw]
  refine ⟨hstep, ?_, ?_, ?_⟩
  · intro l hl
    induction l with
    | nil => rfl
    | cons e t ih =>
      have he : e = SeqEvent.advanceRequest := hl e (by simp)
      rw [List.foldl_cons, he, hstep]
      exact ih (fun e' he' => hl e' (by simp [he']))
  · intro i o ho hauto hdel
    simp [scheduleOverlay, clearTimers, ho, hauto, hdel]
  · intro i o hst ho
    constructor
    · simp [stepSeq, hst, showOverlayNow, ho]
      split <;> rfl
    · simp [stepSeq, hst, showOverlayNow, ho]
      split <;> rfl

/-- Witness for C5: two overlays, the engine waiting on the second overlay's
500ms pre-show timer; a stage click changes nothing. -/
theorem seq_preshow_wait_blocks_advance_witness :
    stepSeq [{ type := "text" }, { type := "text", delay := some 500 }]
        { currentIndex := 1, isWaiting := true, showTimer := some 1 }
        .advanceRequest =
      { currentIndex := 1, isWaiting := true, showTimer := some 1 } :=
  (seq_preshow_wait_blocks_advance
    [{ type := "text" }, { type := "text", delay := some 500 }]
    { currentIndex := 1, isWaiting := true, showTimer := some 1 } rfl).1

/-- C10: a stage click under the sequential renderer resolves to exactly one
slide-advance primitive: with an empty sequence (every non-sound overlay
persistent) it is the деferred `moveToNextSlide`; advancing past the last
element of a non-empty sequence is the gesture `goToNextSlideFromUserGesture`;
and these two primitives are distinct. -/
theorem seq_stage_click_advance_primitive (overlays : List OverlayDef) (s : SeqState) :
    ((stageClickSequential overlays s).slideAdvance =
      (if sequenceDefs overlays = [] then some AdvPrim.deferred
       else if s.isWaiting then s.slideAdvance
       else if s.currentIndex + 1 < (sequenceDefs overlays).length then s.slideAdvance
       else some AdvPrim.gesture)) ∧
    AdvPrim.deferred ≠ AdvPrim.gesture := by
  refine ⟨?_, by simp⟩
  unfold stageClickSequential
  split
  · rfl
  · show (seqAdvance (sequenceDefs overlays) s).slideAdvance = _
    unfold seqAdvance
    by_cases hw : s.isWaiting
    · simp [hw]
    · simp only [hw, if_false, Bool.false_eq_true]
      split
      · rename_i hlt
        simp [hlt, scheduleOverlay_slideAdvance]
      · rename_i hlt
        simp [hlt]

/-! ## Theorems about freeze-on-last-frame -/

/-- C8: for a video-base slide that does not advance on video end (and whose
video source is non-empty, so the renderer obtained a video element), the
renderer attaches the freeze handler; the handler, on the first `timeupdate`
tick at which at most 0.05s remain, pauses the video, seeks to
`max(duration - 0.05, 0)`, marks itself frozen and removes itself; once the
listener is removed no later tick changes the handler state or pauses
anything. -/
theorem freeze_on_last_frame_one_shot (fs : FreezeState) (v : VideoPlayback)
    (slide : Slide)
    (hatt : fs.listenerAttached = true) (hfr : fs.frozen = false)
    (hdur : v.duration ≠ 0) (hrem : v.duration - v.currentTime ≤ 1 / 20)
    (hvid : slide.base.type = "video") (hadv : slide.advance ≠ "video-end")
    (hsrc : slide.base.src ≠ "") :
    freezeOnTimeUpdate fs v =
      ({ frozen := true, listenerAttached := false },
       { v with paused := true, currentTime := max (v.duration - 1 / 20) 0 }) ∧
    (∀ (fs2 : FreezeState) (v2 : VideoPlayback) (ts : List ℚ),
      fs2.listenerAttached = false →
      (freezeTicks fs2 v2 ts).1 = fs2 ∧ (freezeTicks fs2 v2 ts).2.paused = v2.paused) ∧
    rendererAttachesFreeze slide = true := by
  refine ⟨?_, ?_, ?_⟩
  · unfold freezeOnTimeUpdate
    rw [if_neg (by simp [hatt]), if_neg (by simp [hdur, hfr]), if_pos hrem]
  · intro fs2 v2 ts hdet
    induction ts generalizing v2 with
    | nil => exact ⟨rfl, rfl⟩
    | cons t ts ih =>
      have hstep : freezeOnTimeUpdate fs2 { v2 with currentTime := t } =
          (fs2, { v2 with currentTime := t }) := by
        simp [freezeOnTimeUpdate, hdet]
      simp only [freezeTicks, hstep]
      exact ih { v2 with currentTime := t }
  · simp [rendererAttachesFreeze, createBaseMediaKind, hvid, hsrc, hadv]

/-- Witness for C8: a 1-second video observed at 0.96s on a click-advance
slide. -/
theorem freeze_on_last_frame_one_shot_witness :
    freezeOnTimeUpdate {} { paused := false, currentTime := 96 / 100, duration := 1 } =
      ({ frozen := true, listenerAttached := false },
       { paused := true, currentTime := max ((1 : ℚ) - 1 / 20) 0, duration := 1 }) :=
  (freeze_on_last_frame_one_shot {}
    { paused := false, currentTime := 96 / 100, duration := 1 }
    { base := { type := "video", src := "v.mp4" }, advance := "click" }
    rfl rfl (by norm_num) (by norm_num) rfl (by decide) (by decide)).1

/-! ## Theorem about the stage-click decision -/

/-- C9: a slide whose `advance` is neither `"timer"` nor `"video-end"` and that
has no button or hotspot overlay advances on stage click — including an absent
or unrecognized `advance` value, which behaves exactly like
`advance: "click"`. -/
theorem stage_click_default_advance (slide : Slide)
    (h1 : slide.advance ≠ "timer") (h2 : slide.advance ≠ "video-end")
    (h3 : slideHasInteractiveOverlay slide = false) :
    shouldStageAdvanceOnClick slide = true ∧
    shouldStageAdvanceOnClick { slide with advance := "click" } = true := by
  have h3c : slideHasInteractiveOverlay { slide with advance := "click" } = false := h3
  constructor
  · simp [shouldStageAdvanceOnClick, h1, h2, h3]
  · simp [shouldStageAdvanceOnClick, h3c]

/-- Witness for C9: a slide with an unrecognized `advance` value and only a
text overlay. -/
theorem stage_click_default_advance_witness :
    shouldStageAdvanceOnClick
        { overlays := [{ type := "text" }], advance := "mystery" } = true :=
  (stage_click_default_advance { overlays := [{ type := "text" }], advance := "mystery" }
    (by decide) (by decide) (by decide)).1

/-! ## Lemmas about the media/audio state -/

lemma mem_setAdd_iff (l : List Nat) (x n : Nat) : n ∈ setAdd l x ↔ n ∈ l ∨ n = x := by
  unfold setAdd
  split
  · rename_i hx
    constructor
    · exact fun h => Or.inl h
    · rintro (h | rfl)
      · exact h
      · exact hx
  · simp [List.mem_append]

lemma mem_setAdd_self (l : List Nat) (x : Nat) : x ∈ setAdd l x :=
  (mem_setAdd_iff l x x).mpr (Or.inr rfl)

lemma not_mem_setDel_self (l : List Nat) (x : Nat) : x ∉ setDel l x := by
  intro h
  have := (List.mem_filter.mp h).2
  simp at this

lemma lookupAssoc_mem {l : List (String × Nat)} {k : String} {v : Nat}
    (h : lookupAssoc l k = some v) : ∃ p ∈ l, p.2 = v := by
  unfold lookupAssoc at h
  cases hf : l.find? (fun p => p.1 == k) with
  | none => rw [hf] at h; simp at h
  | some p =>
    rw [hf] at h
    have hv : p.2 = v := by simpa using h
    exact ⟨p, List.mem_of_find?_eq_some hf, hv⟩

lemma lookupAssoc_append_self (l : List (String × Nat)) (k : String) (v : Nat)
    (h : lookupAssoc l k = none) : lookupAssoc (l ++ [(k, v)]) k = some v := by
  unfold lookupAssoc at h ⊢
  rw [List.find?_append]
  cases hf : l.find? (fun p => p.1 == k) with
  | some p => rw [hf] at h; simp at h
  | none => simp

lemma updateElem_elems_apply (s : AVState) (i : Nat) (f : MediaElem → MediaElem)
    (n : Nat) :
    (updateElem s i f).elems n = if n = i then f (s.elems n) else s.elems n := rfl

lemma updEach_shape (f : MediaElem → MediaElem) :
    ∀ (l : List Nat) (s : AVState), ∃ g, updEach s l f = { s with elems := g } := by
  intro l
  induction l with
  | nil => intro s; exact ⟨s.elems, rfl⟩
  | cons a t ih =>
    intro s
    obtain ⟨g, hg⟩ := ih (updateElem s a f)
    refine ⟨g, ?_⟩
    show updEach (updateElem s a f) t f = _
    rw [hg]
    rfl

lemma updEach_muted_mono (f : MediaElem → MediaElem)
    (hf : ∀ e : MediaElem, e.muted = true → (f e).muted = true) :
    ∀ (l : List Nat) (s : AVState) (n : Nat),
      (s.elems n).muted = true → ((updEach s l f).elems n).muted = true := by
  intro l
  induction l with
  | nil => intro s n h; exact h
  | cons a t ih =>
    intro s n h
    show ((updEach (updateElem s a f) t f).elems n).muted = true
    apply ih
    rw [updateElem_elems_apply]
    split
    · exact hf _ h
    · exact h

lemma updEach_mutes_mem (f : MediaElem → MediaElem)
    (hf : ∀ e : MediaElem, (f e).muted = true) :
    ∀ (l : List Nat) (s : AVState) (n : Nat), n ∈ l →
      ((updEach s l f).elems n).muted = true := by
  intro l
  induction l with
  | nil => intro s n h; simp at h
  | cons a t ih =>
    intro s n h
    show ((updEach (updateElem s a f) t f).elems n).muted = true
    rcases List.mem_cons.mp h with h1 | h1
    · subst h1
      apply updEach_muted_mono f (fun e _ => hf e)
      rw [updateElem_elems_apply]
      simp [hf]
    · exact ih _ n h1

lemma playMusic_off (s : AVState) (t : Option Nat) (so lo : Bool) (vol : ℚ)
    (h : s.musicEnabled = false) : playMusic s t so lo vol = (none, s) := by
  simp [playMusic, h]

lemma playSound_off (s : AVState) (t : Option Nat) (so lo : Bool) (vol : ℚ)
    (h : s.soundEnabled = false) : playSound s t so lo vol = (none, s) := by
  simp [playSound, h]

lemma resumeMusic_off (s : AVState) (h : s.musicEnabled = false) :
    resumeMusic s = (none, s) := by
  simp [resumeMusic, h]

lemma resumeSound_off (s : AVState) (h : s.soundEnabled = false) :
    resumeSound s = (none, s) := by
  simp [resumeSound, h]

lemma audioHardOff_updEach (s : AVState) (l : List Nat) (f : MediaElem → MediaElem)
    (hf : ∀ e : MediaElem, e.muted = true → (f e).muted = true)
    (hoff : audioHardOff s) : audioHardOff (updEach s l f) := by
  obtain ⟨h1, h2, h3, h4⟩ := hoff
  obtain ⟨g, hg⟩ := updEach_shape f l s
  refine ⟨by rw [hg]; exact h1, by rw [hg]; exact h2, by rw [hg]; exact h3, ?_⟩
  unfold allActiveVideosMuted at h4 ⊢
  rw [List.all_eq_true] at h4 ⊢
  intro v hv
  have hv' : v ∈ s.activeVideo := by rw [hg] at hv; exact hv
  exact updEach_muted_mono f hf l s v (h4 v hv')

lemma audioHardOff_mutesAll (s : AVState) (hoff : audioHardOff s) :
    audioHardOff (muteAllVideos s true) := by
  obtain ⟨h1, h2, h3, h4⟩ := hoff
  obtain ⟨g, hg⟩ := updEach_shape (fun e => { e with muted := true }) s.activeVideo s
  unfold muteAllVideos
  refine ⟨by rw [hg]; exact h1, by rw [hg]; exact h2, by rw [hg]; exact h3, ?_⟩
  unfold allActiveVideosMuted
  rw [List.all_eq_true]
  intro v hv
  have hv' : v ∈ s.activeVideo := by rw [hg] at hv; exact hv
  exact updEach_mutes_mem _ (fun _ => rfl) s.activeVideo s v hv'

lemma audioHardOff_pauseMusic (s : AVState) (t : Option (Option Nat))
    (hoff : audioHardOff s) : audioHardOff (pauseMusic s t) := by
  cases t with
  | none =>
    exact audioHardOff_updEach s s.activeMusic
      (fun e => { e with paused := true }) (fun _ h => h) hoff
  | some t' =>
    cases t' with
    | none => exact hoff
    | some a =>
      exact audioHardOff_updEach s [a]
        (fun e => { e with paused := true }) (fun _ h => h) hoff

lemma audioHardOff_pauseSound (s : AVState) (t : Option (Option Nat))
    (hoff : audioHardOff s) : audioHardOff (pauseSound s t) := by
  cases t with
  | none =>
    exact audioHardOff_updEach s s.activeSound
      (fun e => { e with paused := true }) (fun _ h => h) hoff
  | some t' =>
    cases t' with
    | none => exact hoff
    | some a =>
      exact audioHardOff_updEach s [a]
        (fun e => { e with paused := true }) (fun _ h => h) hoff

lemma audioHardOff_stopMusic (s : AVState) (t : Option (Option Nat))
    (hoff : audioHardOff s) : audioHardOff (stopMusic s t) := by
  cases t with
  | none =>
    exact audioHardOff_updEach s s.activeMusic
      (fun e => { e with paused := true, currentTime := 0 }) (fun _ h => h) hoff
  | some t' =>
    cases t' with
    | none => exact hoff
    | some a =>
      exact audioHardOff_updEach s [a]
        (fun e => { e with paused := true, currentTime := 0 }) (fun _ h => h) hoff

lemma audioHardOff_stopSound (s : AVState) (t : Option (Option Nat))
    (hoff : audioHardOff s) : audioHardOff (stopSound s t) := by
  cases t with
  | none =>
    exact audioHardOff_updEach s s.activeSound
      (fun e => { e with paused := true, currentTime := 0 }) (fun _ h => h) hoff
  | some t' =>
    cases t' with
    | none => exact hoff
    | some a =>
      exact audioHardOff_updEach s [a]
        (fun e => { e with paused := true, currentTime := 0 }) (fun _ h => h) hoff

lemma audioHardOff_pauseAllVideos (s : AVState) (hoff : audioHardOff s) :
    audioHardOff (pauseAllVideos s) :=
  audioHardOff_updEach s s.activeVideo
    (fun e => { e with paused := true }) (fun _ h => h) hoff

lemma audioHardOff_soundEnded (s : AVState) (a : Nat) (hoff : audioHardOff s) :
    audioHardOff (soundEnded s a) := by
  unfold soundEnded
  split
  · exact hoff
  · exact hoff

lemma avWf_bounds {s : AVState} (h : avWf s = true) :
    (∀ v ∈ s.activeVideo, v < s.nextId) ∧ (∀ p ∈ s.videoCache, p.2 < s.nextId) := by
  unfold avWf at h
  simp only [Bool.and_eq_true, List.all_eq_true, decide_eq_true_eq] at h
  exact h

lemma avWf_of_bounds {s : AVState}
    (h1 : ∀ v ∈ s.activeVideo, v < s.nextId)
    (h2 : ∀ p ∈ s.videoCache, p.2 < s.nextId) : avWf s = true := by
  unfold avWf
  simp only [Bool.and_eq_true, List.all_eq_true, decide_eq_true_eq]
  exact ⟨h1, h2⟩

lemma allMuted_iff {s : AVState} :
    allActiveVideosMuted s = true ↔ ∀ v ∈ s.activeVideo, (s.elems v).muted = true := by
  unfold allActiveVideosMuted
  simp [List.all_eq_true]

/-- Allocating a fresh audio element (a music- or sound-cache miss) preserves
the audio-off regime: the write is at `nextId`, which no tracked video id can
equal. -/
lemma audioHardOff_allocAudio (s : AVState) (e : MediaElem)
    (mc sc : List (String × Nat)) (hoff : audioHardOff s) :
    audioHardOff { s with nextId := s.nextId + 1,
                          elems := fun n => if n = s.nextId then e else s.elems n,
                          musicCache := mc, soundCache := sc } := by
  obtain ⟨h1, h2, h3, h4⟩ := hoff
  obtain ⟨ha, hc⟩ := avWf_bounds h3
  refine ⟨h1, h2, avWf_of_bounds ?_ ?_, allMuted_iff.mpr ?_⟩
  · intro v hv
    have := ha v hv
    show v < s.nextId + 1
    omega
  · intro p hp
    have := hc p hp
    show p.2 < s.nextId + 1
    omega
  · intro v hv
    have hlt := ha v hv
    show (if v = s.nextId then e else s.elems v).muted = true
    rw [if_neg (by omega)]
    exact allMuted_iff.mp h4 v hv

/-- Allocating a fresh video element (a video-cache miss) preserves the
regime likewise; the new cache entry points at the fresh id. -/
lemma audioHardOff_allocVideo (s : AVState) (e : MediaElem) (k : String)
    (hoff : audioHardOff s) :
    audioHardOff { s with nextId := s.nextId + 1,
                          elems := fun n => if n = s.nextId then e else s.elems n,
                          videoCache := s.videoCache ++ [(k, s.nextId)] } := by
  obtain ⟨h1, h2, h3, h4⟩ := hoff
  obtain ⟨ha, hc⟩ := avWf_bounds h3
  refine ⟨h1, h2, avWf_of_bounds ?_ ?_, allMuted_iff.mpr ?_⟩
  · intro v hv
    have := ha v hv
    show v < s.nextId + 1
    omega
  · intro p hp
    rcases List.mem_append.mp hp with h | h
    · have := hc p h
      show p.2 < s.nextId + 1
      omega
    · have : p = (k, s.nextId) := by simpa using h
      subst this
      show s.nextId < s.nextId + 1
      omega
  · intro v hv
    have hlt := ha v hv
    show (if v = s.nextId then e else s.elems v).muted = true
    rw [if_neg (by omega)]
    exact allMuted_iff.mp h4 v hv

/-- The shared tail of `getOrCreatePreloadedVideo`: refresh the element's
per-use properties (re-muting it, since sound is off) and add it to
`activeVideoElements`. -/
lemma audioHardOff_addVideo (s : AVState) (video : Nat) (f : MediaElem → MediaElem)
    (hv : video < s.nextId) (hf : ∀ e, (f e).muted = !s.soundEnabled)
    (hoff : audioHardOff s) :
    audioHardOff { updateElem s video f with
                   activeVideo := setAdd (updateElem s video f).activeVideo video } := by
  obtain ⟨h1, h2, h3, h4⟩ := hoff
  obtain ⟨ha, hc⟩ := avWf_bounds h3
  have hmut : ∀ e, (f e).muted = true := by
    intro e
    rw [hf, h2]
    rfl
  refine ⟨h1, h2, avWf_of_bounds ?_ ?_, allMuted_iff.mpr ?_⟩
  · intro v hvm
    have hvm' : v ∈ s.activeVideo ∨ v = video := (mem_setAdd_iff _ _ _).mp hvm
    rcases hvm' with h | rfl
    · exact ha v h
    · exact hv
  · intro p hp
    exact hc p hp
  · intro v hvm
    have hvm' : v ∈ s.activeVideo ∨ v = video := (mem_setAdd_iff _ _ _).mp hvm
    show ((updateElem s video f).elems v).muted = true
    rw [updateElem_elems_apply]
    rcases hvm' with h | rfl
    · split
      · exact hmut _
      · exact allMuted_iff.mp h4 v h
    · simp [hmut]

lemma audioHardOff_getMusic (s : AVState) (src : String) (hoff : audioHardOff s) :
    audioHardOff (getOrCreateMusicAudio s src).2 := by
  unfold getOrCreateMusicAudio
  split
  · exact hoff
  · cases hl : lookupAssoc s.musicCache src with
    | some a => exact hoff
    | none => exact audioHardOff_allocAudio s _ _ _ hoff

lemma audioHardOff_getSound (s : AVState) (src : String) (hoff : audioHardOff s) :
    audioHardOff (getOrCreateSoundAudio s src).2 := by
  unfold getOrCreateSoundAudio
  split
  · exact hoff
  · cases hl : lookupAssoc s.soundCache src with
    | some a => exact hoff
    | none => exact audioHardOff_allocAudio s _ _ _ hoff

lemma audioHardOff_getVideo (s : AVState) (base : BaseMedia) (hoff : audioHardOff s) :
    audioHardOff (getOrCreatePreloadedVideo s base).2 := by
  unfold getOrCreatePreloadedVideo
  split
  · exact hoff
  · cases hl : lookupAssoc s.videoCache base.src with
    | some video =>
      simp only [hl]
      have hv : video < s.nextId := by
        obtain ⟨p, hp, hpv⟩ := lookupAssoc_mem hl
        have := (avWf_bounds hoff.2.2.1).2 p hp
        omega
      exact audioHardOff_addVideo s video _ hv (fun _ => rfl) hoff
    | none =>
      simp only [hl]
      have hoff2 := audioHardOff_allocVideo s
        { src := base.src, muted := !s.soundEnabled, controls := base.controls }
        base.src hoff
      exact audioHardOff_addVideo _ s.nextId _
        (by show s.nextId < s.nextId + 1; omega) (fun _ => rfl) hoff2

lemma audioHardOff_preloadVideo (s : AVState) (src : String) (hoff : audioHardOff s) :
    audioHardOff (preloadVideoSource s src) := by
  unfold preloadVideoSource
  split
  · exact hoff
  · exact audioHardOff_getVideo s _ hoff

lemma audioHardOff_baseVideo (s : AVState) (base : BaseMedia) (hoff : audioHardOff s) :
    audioHardOff (createBaseVideoElement s base).2 := by
  unfold createBaseVideoElement
  have hg := audioHardOff_getVideo s base hoff
  cases hgv : getOrCreatePreloadedVideo s base with
  | mk r s2 =>
    rw [hgv] at hg
    cases r with
    | none => exact hg
    | some video =>
      simp only []
      have hse : s2.soundEnabled = false := hg.2.1
      have h1 := audioHardOff_updEach s2 [video]
        (fun e => { e with currentTime := 0 }) (fun _ h => h) hg
      have h2 := audioHardOff_updEach _ [video]
        (fun e => { e with muted := !s2.soundEnabled })
        (by intro e h; rw [hse]; rfl) h1
      exact audioHardOff_updEach _ [video]
        (fun e => { e with paused := false }) (fun _ h => h) h2

lemma audioHardOff_overlayVideo (s : AVState) (src : String) (lo ap : Bool)
    (hoff : audioHardOff s) :
    audioHardOff (createOverlayVideoElement s src lo ap).2 := by
  obtain ⟨h1, h2, h3, h4⟩ := hoff
  obtain ⟨ha, hc⟩ := avWf_bounds h3
  unfold createOverlayVideoElement
  have hoffAlloc : audioHardOff
      { s with nextId := s.nextId + 1,
               elems := fun n => if n = s.nextId then
                   { src := src, muted := !s.soundEnabled, loop := lo }
                 else s.elems n,
               activeVideo := setAdd s.activeVideo s.nextId } := by
    refine ⟨h1, h2, avWf_of_bounds ?_ ?_, allMuted_iff.mpr ?_⟩
    · intro v hv
      rcases (mem_setAdd_iff _ _ _).mp hv with h | rfl
      · have := ha v h
        show v < s.nextId + 1
        omega
      · show s.nextId < s.nextId + 1
        omega
    · intro p hp
      have := hc p hp
      show p.2 < s.nextId + 1
      omega
    · intro v hv
      show (if v = s.nextId then
          { src := src, muted := !s.soundEnabled, loop := lo } else s.elems v).muted = true
      rcases (mem_setAdd_iff _ _ _).mp hv with h | rfl
      · have := ha v h
        rw [if_neg (by omega)]
        exact allMuted_iff.mp h4 v h
      · rw [if_pos rfl]
        simp [h2]
  split
  · exact audioHardOff_updEach _ [s.nextId]
      (fun e => { e with paused := false }) (fun _ h => h) hoffAlloc
  · exact hoffAlloc

lemma audioHardOff_returnToSplash (s : AVState) (hoff : audioHardOff s) :
    audioHardOff (returnToSplashAudio s) := by
  unfold returnToSplashAudio
  show audioHardOff
    (playMusic
      (getOrCreateSoundAudio
        (muteAllVideos (pauseAllVideos (stopSound (stopMusic s none) none)) true)
        splashMusicSrc).2
      (getOrCreateSoundAudio
        (muteAllVideos (pauseAllVideos (stopSound (stopMusic s none) none)) true)
        splashMusicSrc).1
      true true 1).2
  have h1 := audioHardOff_stopMusic s none hoff
  have h2 := audioHardOff_stopSound _ none h1
  have h3 := audioHardOff_pauseAllVideos _ h2
  have h4 := audioHardOff_mutesAll _ h3
  have h5 := audioHardOff_getSound _ splashMusicSrc h4
  rw [playMusic_off _ _ _ _ _ h5.1]
  exact h5

lemma audioHardOff_step (s : AVState) (e : AVEvent) (hoff : audioHardOff s)
    (he : e ≠ AVEvent.toggleGlobal) : audioHardOff (stepAV s e) := by
  cases e with
  | toggleGlobal => exact absurd rfl he
  | playMusicEv t so lo vol =>
    show audioHardOff (playMusic s t so lo vol).2
    rw [playMusic_off s t so lo vol hoff.1]
    exact hoff
  | pauseMusicEv t => exact audioHardOff_pauseMusic s t hoff
  | resumeMusicEv =>
    show audioHardOff (resumeMusic s).2
    rw [resumeMusic_off s hoff.1]
    exact hoff
  | stopMusicEv t => exact audioHardOff_stopMusic s t hoff
  | playSoundEv t so lo vol =>
    show audioHardOff (playSound s t so lo vol).2
    rw [playSound_off s t so lo vol hoff.2.1]
    exact hoff
  | pauseSoundEv t => exact audioHardOff_pauseSound s t hoff
  | resumeSoundEv =>
    show audioHardOff (resumeSound s).2
    rw [resumeSound_off s hoff.2.1]
    exact hoff
  | stopSoundEv t => exact audioHardOff_stopSound s t hoff
  | soundEndedEv a => exact audioHardOff_soundEnded s a hoff
  | getMusicAudioEv src => exact audioHardOff_getMusic s src hoff
  | getSoundAudioEv src => exact audioHardOff_getSound s src hoff
  | getVideoEv base => exact audioHardOff_getVideo s base hoff
  | baseVideoEv base => exact audioHardOff_baseVideo s base hoff
  | overlayVideoEv src lo ap => exact audioHardOff_overlayVideo s src lo ap hoff
  | preloadVideoEv src => exact audioHardOff_preloadVideo s src hoff
  | returnToSplashEv => exact audioHardOff_returnToSplash s hoff
  | initialMuteSync =>
    show audioHardOff (muteAllVideos s (!s.soundEnabled))
    rw [hoff.2.1]
    exact audioHardOff_mutesAll s hoff

/-- Flipping the toggle off pauses both buses and then mutes every active
video, establishing the audio-off regime. -/
lemma audioHardOff_off_then_muteAll (s1 : AVState)
    (hm : s1.musicEnabled = false) (hs : s1.soundEnabled = false)
    (hwf : avWf s1 = true) :
    audioHardOff (muteAllVideos (pauseSound (pauseMusic s1 none) none) true) := by
  obtain ⟨g1, hg1⟩ := updEach_shape (fun e => { e with paused := true })
    s1.activeMusic s1
  have hp1 : pauseMusic s1 none = { s1 with elems := g1 } := hg1
  obtain ⟨g2, hg2⟩ := updEach_shape (fun e => { e with paused := true })
    ({ s1 with elems := g1 } : AVState).activeSound { s1 with elems := g1 }
  have hp2 : pauseSound (pauseMusic s1 none) none = { s1 with elems := g2 } := by
    rw [hp1]
    exact hg2
  obtain ⟨g3, hg3⟩ := updEach_shape (fun e => { e with muted := true })
    ({ s1 with elems := g2 } : AVState).activeVideo { s1 with elems := g2 }
  have hfin : muteAllVideos (pauseSound (pauseMusic s1 none) none) true =
      { s1 with elems := g3 } := by
    unfold muteAllVideos
    rw [hp2]
    exact hg3
  refine ⟨by rw [hfin]; exact hm, by rw [hfin]; exact hs, by rw [hfin]; exact hwf, ?_⟩
  apply allMuted_iff.mpr
  intro v hv
  have hv2 : v ∈ (pauseSound (pauseMusic s1 none) none).activeVideo := by
    have : (muteAllVideos (pauseSound (pauseMusic s1 none) none) true).activeVideo =
        (pauseSound (pauseMusic s1 none) none).activeVideo := by
      rw [hfin, hp2]
    rw [this] at hv
    exact hv
  exact updEach_mutes_mem (fun e => { e with muted := true }) (fun _ => rfl)
    (pauseSound (pauseMusic s1 none) none).activeVideo
    (pauseSound (pauseMusic s1 none) none) v hv2

lemma audioHardOff_toggleFromOn (s : AVState) (hse : s.soundEnabled = true)
    (hwf : avWf s = true) : audioHardOff (toggleGlobalAudio s) := by
  unfold toggleGlobalAudio
  rw [hse]
  exact audioHardOff_off_then_muteAll
    { s with soundEnabled := !true, musicEnabled := !true } rfl rfl hwf

/-! ## Lemmas about cache hits and misses -/

lemma getMusic_cached (s : AVState) (src : String) (a : Nat) (hs : src ≠ "")
    (hl : lookupAssoc s.musicCache src = some a) :
    getOrCreateMusicAudio s src = (some a, s) := by
  unfold getOrCreateMusicAudio
  rw [if_neg hs, hl]

lemma getMusic_caches (s : AVState) (src : String) (hs : src ≠ "") :
    ∃ a, (getOrCreateMusicAudio s src).1 = some a ∧
      lookupAssoc (getOrCreateMusicAudio s src).2.musicCache src = some a := by
  unfold getOrCreateMusicAudio
  rw [if_neg hs]
  cases hl : lookupAssoc s.musicCache src with
  | some a => exact ⟨a, rfl, hl⟩
  | none =>
    refine ⟨s.nextId, rfl, ?_⟩
    show lookupAssoc (s.musicCache ++ [(src, s.nextId)]) src = some s.nextId
    exact lookupAssoc_append_self _ _ _ hl

lemma getSound_cached (s : AVState) (src : String) (a : Nat) (hs : src ≠ "")
    (hl : lookupAssoc s.soundCache src = some a) :
    getOrCreateSoundAudio s src = (some a, s) := by
  unfold getOrCreateSoundAudio
  rw [if_neg hs, hl]

lemma getSound_caches (s : AVState) (src : String) (hs : src ≠ "") :
    ∃ a, (getOrCreateSoundAudio s src).1 = some a ∧
      lookupAssoc (getOrCreateSoundAudio s src).2.soundCache src = some a := by
  unfold getOrCreateSoundAudio
  rw [if_neg hs]
  cases hl : lookupAssoc s.soundCache src with
  | some a => exact ⟨a, rfl, hl⟩
  | none =>
    refine ⟨s.nextId, rfl, ?_⟩
    show lookupAssoc (s.soundCache ++ [(src, s.nextId)]) src = some s.nextId
    exact lookupAssoc_append_self _ _ _ hl

lemma getVideo_cached (s : AVState) (base : BaseMedia) (v : Nat) (hs : base.src ≠ "")
    (hl : lookupAssoc s.videoCache base.src = some v) :
    (getOrCreatePreloadedVideo s base).1 = some v ∧
    (getOrCreatePreloadedVideo s base).2.videoCache = s.videoCache ∧
    (getOrCreatePreloadedVideo s base).2.nextId = s.nextId := by
  unfold getOrCreatePreloadedVideo
  rw [if_neg hs, hl]
  exact ⟨rfl, rfl, rfl⟩

lemma getVideo_caches (s : AVState) (base : BaseMedia) (hs : base.src ≠ "") :
    ∃ v, (getOrCreatePreloadedVideo s base).1 = some v ∧
      lookupAssoc (getOrCreatePreloadedVideo s base).2.videoCache base.src = some v := by
  unfold getOrCreatePreloadedVideo
  rw [if_neg hs]
  cases hl : lookupAssoc s.videoCache base.src with
  | some v =>
    simp only [hl]
    refine ⟨v, rfl, ?_⟩
    show lookupAssoc s.videoCache base.src = some v
    exact hl
  | none =>
    simp only [hl]
    refine ⟨s.nextId, rfl, ?_⟩
    show lookupAssoc (s.videoCache ++ [(base.src, s.nextId)]) base.src = some s.nextId
    exact lookupAssoc_append_self _ _ _ hl

lemma getVideo_active (s : AVState) (base : BaseMedia) (hs : base.src ≠ "") :
    ∃ v, (getOrCreatePreloadedVideo s base).1 = some v ∧
      v ∈ (getOrCreatePreloadedVideo s base).2.activeVideo := by
  unfold getOrCreatePreloadedVideo
  rw [if_neg hs]
  cases hl : lookupAssoc s.videoCache base.src with
  | some v =>
    simp only [hl]
    exact ⟨v, rfl, mem_setAdd_self _ _⟩
  | none =>
    simp only [hl]
    exact ⟨s.nextId, rfl, mem_setAdd_self _ _⟩

/-! ## Theorems about the media cache and the audio director -/

/-- C4: within a session, asking the media cache twice for the same non-empty
source returns the same element: the second `getOrCreatePreloadedVideo` call
yields the element of the first and allocates nothing (`nextId` and the video
cache are unchanged); the second `getOrCreateMusicAudio` and
`getOrCreateSoundAudio` calls yield the element of the first and leave the
whole state untouched. -/
theorem media_cache_same_element (s : AVState) (base : BaseMedia) (src : String)
    (hb : base.src ≠ "") (hs : src ≠ "") :
    (∃ v, (getOrCreatePreloadedVideo s base).1 = some v ∧
      (getOrCreatePreloadedVideo (getOrCreatePreloadedVideo s base).2 base).1 = some v ∧
      (getOrCreatePreloadedVideo (getOrCreatePreloadedVideo s base).2 base).2.nextId =
        (getOrCreatePreloadedVideo s base).2.nextId ∧
      (getOrCreatePreloadedVideo (getOrCreatePreloadedVideo s base).2 base).2.videoCache =
        (getOrCreatePreloadedVideo s base).2.videoCache) ∧
    (∃ a, (getOrCreateMusicAudio s src).1 = some a ∧
      getOrCreateMusicAudio (getOrCreateMusicAudio s src).2 src =
        (some a, (getOrCreateMusicAudio s src).2)) ∧
    (∃ a, (getOrCreateSoundAudio s src).1 = some a ∧
      getOrCreateSoundAudio (getOrCreateSoundAudio s src).2 src =
        (some a, (getOrCreateSoundAudio s src).2)) := by
  refine ⟨?_, ?_, ?_⟩
  · obtain ⟨v, h1, h2⟩ := getVideo_caches s base hb
    obtain ⟨h3, h4, h5⟩ := getVideo_cached _ base v hb h2
    exact ⟨v, h1, h3, h5, h4⟩
  · obtain ⟨a, h1, h2⟩ := getMusic_caches s src hs
    exact ⟨a, h1, getMusic_cached _ src a hs h2⟩
  · obtain ⟨a, h1, h2⟩ := getSound_caches s src hs
    exact ⟨a, h1, getSound_cached _ src a hs h2⟩

/-- Witness for C4: two requests for the same source on the fresh session
state return the same element. -/
theorem media_cache_same_element_witness :
    (getOrCreatePreloadedVideo
        (getOrCreatePreloadedVideo avInit { type := "video", src := "v.mp4" }).2
        { type := "video", src := "v.mp4" }).1 =
      (getOrCreatePreloadedVideo avInit { type := "video", src := "v.mp4" }).1 := by
  obtain ⟨⟨v, h1, h2, h3, h4⟩, h5, h6⟩ :=
    media_cache_same_element avInit { type := "video", src := "v.mp4" } "m.mp3"
      (by decide) (by decide)
  rw [h1, h2]

/-- C6: with music disabled, `playMusic` returns `null` and changes nothing;
with sound disabled, `playSound` likewise; flipping the toggle off (from on)
disables both flags, and mutes every tracked video; and the resulting regime —
flags off, every active video muted — survives every subsequent operation
until the toggle is pressed again. -/
theorem audio_toggle_off_silences (s : AVState) :
    (s.musicEnabled = false → ∀ (t : Option Nat) (so lo : Bool) (vol : ℚ),
      playMusic s t so lo vol = (none, s)) ∧
    (s.soundEnabled = false → ∀ (t : Option Nat) (so lo : Bool) (vol : ℚ),
      playSound s t so lo vol = (none, s)) ∧
    (s.soundEnabled = true → avWf s = true → audioHardOff (toggleGlobalAudio s)) ∧
    (audioHardOff s → ∀ l : List AVEvent, (∀ e ∈ l, e ≠ AVEvent.toggleGlobal) →
      audioHardOff (l.foldl stepAV s)) := by
  refine ⟨fun h t so lo vol => playMusic_off s t so lo vol h,
          fun h t so lo vol => playSound_off s t so lo vol h,
          fun hse hwf => audioHardOff_toggleFromOn s hse hwf, ?_⟩
  suffices h : ∀ (l : List AVEvent) (s : AVState), audioHardOff s →
      (∀ e ∈ l, e ≠ AVEvent.toggleGlobal) → audioHardOff (l.foldl stepAV s) by
    exact fun hoff l hl => h l s hoff hl
  intro l
  induction l with
  | nil => exact fun s hoff _ => hoff
  | cons e t ih =>
    intro s hoff hl
    rw [List.foldl_cons]
    exact ih (stepAV s e) (audioHardOff_step s e hoff (hl e (by simp)))
      (fun e2 he2 => hl e2 (List.mem_cons_of_mem _ he2))

/-- Witness for C6: with audio off, `playMusic` is a no-op returning no
handle. -/
theorem audio_toggle_off_silences_witness :
    playMusic { musicEnabled := false, soundEnabled := false } none true true 1 =
      (none, { musicEnabled := false, soundEnabled := false }) :=
  (audio_toggle_off_silences { musicEnabled := false, soundEnabled := false }).1
    rfl none true true 1

lemma playMusic_on (s : AVState) (audio : Nat) (so lo : Bool) (vol : ℚ)
    (h : s.musicEnabled = true) :
    ∃ s2 : AVState, playMusic s (some audio) so lo vol = (some audio, s2) ∧
      s2.activeMusic = setAdd (if so then
        ({ updEach s s.activeMusic (fun e => { e with paused := true, currentTime := 0 })
           with activeMusic := [] } : AVState) else s).activeMusic audio := by
  unfold playMusic
  rw [if_neg (by simp [h])]
  exact ⟨_, rfl, rfl⟩

lemma playSound_on (s : AVState) (audio : Nat) (so lo : Bool) (vol : ℚ)
    (h : s.soundEnabled = true) :
    ∃ s2 : AVState, playSound s (some audio) so lo vol = (some audio, s2) ∧
      audio ∈ s2.activeSound := by
  unfold playSound
  rw [if_neg (by simp [h])]
  refine ⟨_, rfl, ?_⟩
  show audio ∈ (if lo then _ else _ : AVState).activeSound
  split
  · exact mem_setAdd_self _ _
  · exact mem_setAdd_self _ _

/-- C7 (amended): for the music and sound active sets, membership is added
when playback is started (`playMusic`/`playSound`), removed by the
corresponding stop — which also rewinds the element to zero — and never
removed by pause, which keeps both position and membership.  For
`activeVideoElements`, membership is instead added whenever the element is
fetched or created through `getOrCreatePreloadedVideo` — including pure
preloads that start no playback. -/
theorem active_set_membership_semantics (s : AVState) (audio : Nat) (so lo : Bool)
    (vol : ℚ) (base : BaseMedia) :
    (s.musicEnabled = true →
      (playMusic s (some audio) so lo vol).1 = some audio ∧
      audio ∈ (playMusic s (some audio) so lo vol).2.activeMusic) ∧
    (((stopMusic s (some (some audio))).elems audio).currentTime = 0 ∧
     ((stopMusic s (some (some audio))).elems audio).paused = true ∧
     audio ∉ (stopMusic s (some (some audio))).activeMusic) ∧
    ((pauseMusic s (some (some audio))).activeMusic = s.activeMusic ∧
     ((pauseMusic s (some (some audio))).elems audio).currentTime =
       (s.elems audio).currentTime) ∧
    (s.soundEnabled = true →
      (playSound s (some audio) so lo vol).1 = some audio ∧
      audio ∈ (playSound s (some audio) so lo vol).2.activeSound) ∧
    (((stopSound s (some (some audio))).elems audio).currentTime = 0 ∧
     audio ∉ (stopSound s (some (some audio))).activeSound) ∧
    ((pauseSound s (some (some audio))).activeSound = s.activeSound ∧
     ((pauseSound s (some (some audio))).elems audio).currentTime =
       (s.elems audio).currentTime) ∧
    (base.src ≠ "" → ∃ v, (getOrCreatePreloadedVideo s base).1 = some v ∧
      v ∈ (getOrCreatePreloadedVideo s base).2.activeVideo) := by
  refine ⟨?_, ?_, ?_, ?_, ?_, ?_, fun hb => getVideo_active s base hb⟩
  · intro h
    obtain ⟨s2, hp, ha⟩ := playMusic_on s audio so lo vol h
    rw [hp, ha]
    exact ⟨rfl, mem_setAdd_self _ _⟩
  · refine ⟨?_, ?_, ?_⟩
    · show (if audio = audio then _ else _ : MediaElem).currentTime = 0
      rw [if_pos rfl]
    · show (if audio = audio then _ else _ : MediaElem).paused = true
      rw [if_pos rfl]
    · exact not_mem_setDel_self _ _
  · refine ⟨rfl, ?_⟩
    show (if audio = audio then _ else _ : MediaElem).currentTime =
      (s.elems audio).currentTime
    rw [if_pos rfl]
  · intro h
    obtain ⟨s2, hp, ha⟩ := playSound_on s audio so lo vol h
    rw [hp]
    exact ⟨rfl, ha⟩
  · refine ⟨?_, ?_⟩
    · show (if audio = audio then _ else _ : MediaElem).currentTime = 0
      rw [if_pos rfl]
    · exact not_mem_setDel_self _ _
  · refine ⟨rfl, ?_⟩
    show (if audio = audio then _ else _ : MediaElem).currentTime =
      (s.elems audio).currentTime
    rw [if_pos rfl]

/-- Witness for C7 (amended): starting a music track on the fresh state puts
it in the active music set. -/
theorem active_set_membership_semantics_witness :
    5 ∈ (playMusic avInit (some 5) true true 1).2.activeMusic :=
  ((active_set_membership_semantics avInit 5 true true 1
      { type := "video", src := "v.mp4" }).1 rfl).2

/-- C7 counterexample: the original claim says membership in an active set is
added exactly when playback is started on the element, but preloading a video
(`preloadVideoSource`, as called by `preloadNextPrimaryAsset`) adds the
freshly created element to `activeVideoElements` while `play()` has never been
invoked and the element is still paused. -/
theorem active_video_membership_counterexample :
    0 ∈ (preloadVideoSource avInit "v.mp4").activeVideo ∧
    0 ∉ (preloadVideoSource avInit "v.mp4").playCalls ∧
    ((preloadVideoSource avInit "v.mp4").elems 0).paused = true := by
  decide
